import Mathlib

/-!
Verification of the `ImageViewing` overlay component
(`src/ImageViewing.tsx`) of react-native-image-viewing.

The component is embedded as an explicit state machine. Per-render data
(`Props`), the component state (`State`: the `useState` cells plus the
values driven through the animated-components hook and the host list's
`scrollEnabled` flag), and the UI events that reach the component
(momentum-scroll-end, in-flight scroll drag, an item's `onLoad`, an
item's `onZoom`) are modelled directly from the source. React semantics
used: `useEffect` with dependency `[currentImageIndex]` runs once after
mount and again after every render in which `currentImageIndex` changed;
`useState` setters called with an unchanged value do not re-trigger it.

The hooks `useImageIndexChange` and `useAnimatedComponents` are imported
by the source file but their implementations are not part of the source
tree given here; where their behaviour decides a claim they are modelled
from the spec (see `clampIndex`, `settleIndex`, and the `barsVisible`
field), each marked `Modelled from the spec:`.
-/

namespace ImageViewingModel

/-- An element of the `images` prop. From `src/@types` usage in
`src/ImageViewing.tsx`: `uri` (used by `keyExtractor`, line 185) may be
missing, `type` is compared with the string "VideoMessage" (line 146),
`print_button` is compared with `true` (line 163). -/
structure ImageSource where
  uri : Option String
  type : Option String
  print_button : Option Bool
  deriving Repr, DecidableEq

/-- The props of `ImageViewing` (lines 33-48). Callbacks and component
slots are modelled by presence flags; what a present callback is invoked
with is recorded in the state / render results below. -/
structure Props where
  images : List ImageSource
  imageIndex : Int
  visible : Bool
  hasOnImageIndexChange : Bool
  swipeToCloseEnabled : Option Bool
  doubleTapToZoomEnabled : Option Bool
  hasHeaderComponent : Bool
  hasFooterComponent : Bool
  hasVideoButtonCallback : Bool
  hasPrintButtonCallback : Bool
  deriving Repr, DecidableEq

/-- Component state. `currentImageIndex` is the state cell of
`useImageIndexChange` (line 73); `imageLoaded` the `useState` cell of
line 79; `barsVisible` is the boolean driven through
`toggleBarsVisible` (Modelled from the spec: ChromeVisibility's
`setVisible(bool)` state, latest call wins); `scrollEnabled` is the
host list flag set through `setNativeProps` (line 93);
`indexChangeCalls` records every invocation of `onImageIndexChange`
with its argument, oldest first. -/
structure State where
  currentImageIndex : Int
  imageLoaded : Bool
  barsVisible : Bool
  scrollEnabled : Bool
  indexChangeCalls : List Int
  deriving Repr, DecidableEq

/-- Modelled from the spec: "Out-of-range `imageIndex` (negative or ≥
length) → clamp to valid bounds at mount" and §4.4 "clamps it to valid
range". Clamp an index into `[0, count-1]`. -/
def clampIndex (i : Int) (count : Nat) : Int :=
  max 0 (min i ((count : Int) - 1))

/-- Rounding division: `Math.round (a / b)` for integer `a` and positive
integer `b`, i.e. `⌊a / b + 1 / 2⌋`. -/
def roundDiv (a b : Int) : Int :=
  (2 * a + b) / (2 * b)

/-- Modelled from the spec (§4.4, the `useImageIndexChange` hook is not
in the given source tree): on a momentum-end event "the coordinator
computes the new index from the reported scroll offset
(`round(offset / pageWidth)`), clamps it to valid range". -/
def settleIndex (offsetX pageWidth : Int) (count : Nat) : Int :=
  clampIndex (roundDiv offsetX pageWidth) count

/-- The body of the `useEffect` of lines 81-86, run after a render in
which `currentImageIndex` changed (and once after mount): only when
`onImageIndexChange` is provided, reset `imageLoaded` to `false` and
invoke the callback with the current index. -/
def runIndexEffect (p : Props) (s : State) : State :=
  if p.hasOnImageIndexChange then
    { s with imageLoaded := false
           , indexChangeCalls := s.indexChangeCalls ++ [s.currentImageIndex] }
  else s

/-- State before the first effect run: `currentImageIndex` seeded from
the `imageIndex` prop (clamped; Modelled from the spec for the missing
hook), `imageLoaded := false` (line 79), bars shown and paging enabled. -/
def initState (p : Props) : State :=
  { currentImageIndex := clampIndex p.imageIndex p.images.length
  , imageLoaded := false
  , barsVisible := true
  , scrollEnabled := true
  , indexChangeCalls := [] }

/-- State right after mount: the `useEffect` of lines 81-86 has run once
(React runs an effect with dependency `[currentImageIndex]` after the
first render). -/
def mount (p : Props) : State :=
  runIndexEffect p (initState p)

/-- UI events delivered to the mounted component.
`momentumScrollEnd` carries the settled content offset and is wired to
`onScroll` of `useImageIndexChange` (line 184); `scrollDrag` is an
in-flight scroll position, which the component attaches no handler to;
`itemLoad i` is item `i` firing the `onLoad` it was given (line 140 —
note every rendered item receives the same `onFinishLoad`); `zoom` is an
item reporting `onZoom(isScaled)` (lines 90-97). -/
inductive Event where
  | momentumScrollEnd (offsetX : Int)
  | scrollDrag (offsetX : Int)
  | itemLoad (index : Nat)
  | zoom (isScaled : Bool)
  deriving Repr, DecidableEq

/-- One event step of the mounted component.
Momentum end: the hook settles a new index (Modelled from the spec, see
`settleIndex`); if it differs from the current one the state cell
changes and the effect of lines 81-86 re-runs, otherwise nothing
happens. In-flight scroll positions are ignored (no handler in the
source). `onFinishLoad` (line 88) sets the shared `imageLoaded` flag,
whichever item fired it. `onZoom` (lines 90-97) sets the list's
`scrollEnabled` to `!isScaled` and calls `toggleBarsVisible (!isScaled)`. -/
def step (pageWidth : Int) (p : Props) (s : State) : Event → State
  | .momentumScrollEnd offsetX =>
      if settleIndex offsetX pageWidth p.images.length = s.currentImageIndex then s
      else runIndexEffect p
        { s with currentImageIndex := settleIndex offsetX pageWidth p.images.length }
  | .scrollDrag _ => s
  | .itemLoad _ => { s with imageLoaded := true }
  | .zoom isScaled => { s with scrollEnabled := !isScaled, barsVisible := !isScaled }

/-- Run the component from mount through a list of events. -/
def run (pageWidth : Int) (p : Props) (events : List Event) : State :=
  events.foldl (step pageWidth p) (mount p)

/-- What the header slot renders (lines 109-117): the caller's component
with `imageIndex`, or `ImageDefaultHeader` wired to
`onRequestCloseEnhanced`. -/
inductive HeaderRender where
  | custom (imageIndex : Int)
  | defaultCloseHeader
  deriving Repr, DecidableEq

/-- Header rendering choice of lines 110-116. -/
def renderHeader (p : Props) (s : State) : HeaderRender :=
  if p.hasHeaderComponent then HeaderRender.custom s.currentImageIndex
  else HeaderRender.defaultCloseHeader

/-- Footer rendering of lines 187-195: the caller's component with
`imageIndex` when provided, nothing otherwise. The result is the
`imageIndex` prop value passed to `FooterComponent`. -/
def renderFooter (p : Props) (s : State) : Option Int :=
  if p.hasFooterComponent then some s.currentImageIndex else none

/-- The affordances of one rendered list item (lines 136-183).
`playPress` / `printPress` describe what a tap on the respective
affordance does: `some item` means the callback is invoked with that
item, `none` means nothing happens. -/
structure RenderedItem where
  showPlayButton : Bool
  showPrintButton : Bool
  playPress : Option ImageSource
  printPress : Option ImageSource
  deriving Repr, DecidableEq

/-- `renderItem` of lines 136-183: the play affordance is gated by
`imageSrc.type == "VideoMessage"` (line 146), the print affordance by
`imageSrc.print_button == true && imageLoaded` (lines 163-164); the
press handlers guard on the callback being provided (lines 155-159 and
166-170). -/
def renderItem (p : Props) (s : State) (imageSrc : ImageSource) : RenderedItem :=
  { showPlayButton := imageSrc.type == some "VideoMessage"
  , showPrintButton := (imageSrc.print_button == some true) && s.imageLoaded
  , playPress := if p.hasVideoButtonCallback then some imageSrc else none
  , printPress := if p.hasPrintButtonCallback then some imageSrc else none }

/-- `keyExtractor` of line 185: `imageSrc => imageSrc.uri`. It receives
only the item (the position argument is not bound) and returns its
`uri`; a missing `uri` yields no key. -/
def keyExtractor (imageSrc : ImageSource) : Option String :=
  imageSrc.uri

/-- Definition following the spec's words, for comparison with
`keyExtractor`: "each item must still render deterministically using
its list position as a fallback key". -/
def specKeyExtractor (imageSrc : ImageSource) (index : Nat) : String :=
  imageSrc.uri.getD (toString index)

/-- A mounted instance of the inner `ImageViewing`, as React
reconciliation sees it: its key and its state. -/
structure MountedInstance where
  key : Int
  state : State
  deriving Repr, DecidableEq

/-- The key `EnhancedImageViewing` gives the inner component
(line 230): `key={props.imageIndex}`. -/
def enhancedKey (p : Props) : Int :=
  p.imageIndex

/-- Rendering `EnhancedImageViewing` (lines 229-231) against the
previously mounted instance, following React reconciliation: an element
with an unchanged key keeps the existing instance and its state; a
changed key (or no previous instance) unmounts and mounts fresh, so the
state is rebuilt by `mount`. -/
def renderEnhanced (p : Props) : Option MountedInstance → MountedInstance
  | some inst =>
      if inst.key = enhancedKey p then inst
      else { key := enhancedKey p, state := mount p }
  | none => { key := enhancedKey p, state := mount p }

/-- A plain image item: no video type, no print button. -/
def imgA : ImageSource := { uri := some "a", type := none, print_button := none }

/-- A second plain image item. -/
def imgB : ImageSource := { uri := some "b", type := none, print_button := none }

/-- A third plain image item. -/
def imgC : ImageSource := { uri := some "c", type := none, print_button := none }

/-- An item with `print_button: true`. -/
def imgPrint : ImageSource := { uri := some "p", type := none, print_button := some true }

/-- An item of type "VideoMessage". -/
def imgVideo : ImageSource := { uri := some "v", type := some "VideoMessage", print_button := none }

/-- An item with no `uri`. -/
def imgNoUri : ImageSource := { uri := none, type := none, print_button := none }

/-- A baseline prop assignment: three plain images, start at index 0,
no optional callbacks or slots. -/
def baseProps : Props :=
  { images := [imgA, imgB, imgC]
  , imageIndex := 0
  , visible := true
  , hasOnImageIndexChange := false
  , swipeToCloseEnabled := none
  , doubleTapToZoomEnabled := none
  , hasHeaderComponent := false
  , hasFooterComponent := false
  , hasVideoButtonCallback := false
  , hasPrintButtonCallback := false }

/-- Props for the print-gating scenario: the focused item 0 has a print
button, item 1 is the plain neighbour; `onImageIndexChange` absent. -/
def pPrint : Props :=
  { baseProps with images := [imgPrint, imgB] }

/-- Props for the print-gating scenario with `onImageIndexChange`
provided. -/
def pPrintCb : Props :=
  { baseProps with images := [imgPrint, imgB], hasOnImageIndexChange := true }

/-- Props with `onImageIndexChange` provided. -/
def pCb : Props :=
  { baseProps with hasOnImageIndexChange := true }

/-- Props with a header component provided. -/
def pHeader : Props :=
  { baseProps with hasHeaderComponent := true, hasFooterComponent := true }

/-- Props with a video-button callback provided. -/
def pVideo : Props :=
  { baseProps with images := [imgVideo], hasVideoButtonCallback := true }

/-- A single-image prop assignment. -/
def pOne : Props :=
  { baseProps with images := [imgA] }

/-- `runIndexEffect` never touches `currentImageIndex`. -/
theorem runIndexEffect_index (p : Props) (s : State) :
    (runIndexEffect p s).currentImageIndex = s.currentImageIndex := by
  unfold runIndexEffect
  split <;> rfl

/-- `clampIndex` is never negative. -/
theorem clampIndex_nonneg (i : Int) (n : Nat) : 0 ≤ clampIndex i n :=
  le_max_left 0 _

/-- `clampIndex` stays below a nonzero count. -/
theorem clampIndex_lt (i : Int) (n : Nat) (hn : n ≠ 0) :
    clampIndex i n < (n : Int) := by
  have h0 : (1 : Int) ≤ (n : Int) := by exact_mod_cast Nat.pos_of_ne_zero hn
  have h1 : min i ((n : Int) - 1) ≤ (n : Int) - 1 := min_le_right _ _
  have h2 : max 0 (min i ((n : Int) - 1)) ≤ (n : Int) - 1 :=
    max_le (by omega) h1
  calc clampIndex i n ≤ (n : Int) - 1 := h2
    _ < (n : Int) := by omega

/-- Claim C4: whenever an item reports `onZoom(true)` the bars-visible
value is toggled to `false`, and on `onZoom(false)` it is toggled back
to `true` (lines 90-97: `toggleBarsVisible(!isScaled)`). -/
theorem zoom_toggles_bars (pageWidth : Int) (p : Props) (s : State) :
    (step pageWidth p s (Event.zoom true)).barsVisible = false
  ∧ (step pageWidth p s (Event.zoom false)).barsVisible = true :=
  ⟨rfl, rfl⟩

/-- Claim C10: whenever an item reports `onZoom(isScaled)`, horizontal
paging of the host list is set to the negation of `isScaled` (line 93:
`setNativeProps(\x7b scrollEnabled: !isScaled \x7d)`). -/
theorem zoom_sets_scrollEnabled (pageWidth : Int) (p : Props) (s : State) (isScaled : Bool) :
    (step pageWidth p s (Event.zoom isScaled)).scrollEnabled = !isScaled :=
  rfl

/-- Claim C7: a provided `HeaderComponent` is rendered with
`imageIndex = currentImageIndex`; an absent one falls back to the
default close header; a provided `FooterComponent` receives
`imageIndex = currentImageIndex`, an absent one renders nothing
(lines 109-117 and 187-195). -/
theorem header_footer_render (p : Props) (s : State) :
    (p.hasHeaderComponent = true →
      renderHeader p s = HeaderRender.custom s.currentImageIndex)
  ∧ (p.hasHeaderComponent = false →
      renderHeader p s = HeaderRender.defaultCloseHeader)
  ∧ (p.hasFooterComponent = true →
      renderFooter p s = some s.currentImageIndex)
  ∧ (p.hasFooterComponent = false →
      renderFooter p s = none) := by
  refine ⟨fun h => ?_, fun h => ?_, fun h => ?_, fun h => ?_⟩ <;>
    simp [renderHeader, renderFooter, h]

/-- Witness for C7 at concrete props: header and footer provided in
`pHeader`, both absent in `baseProps`. -/
theorem header_footer_render_witness :
    renderHeader pHeader (mount pHeader) = HeaderRender.custom 0
  ∧ renderFooter baseProps (mount baseProps) = none := by
  constructor
  · have h := (header_footer_render pHeader (mount pHeader)).1 rfl
    rw [h]
    rfl
  · exact (header_footer_render baseProps (mount baseProps)).2.2.2 rfl

/-- Claim C8: the play affordance is rendered exactly when
`item.type == "VideoMessage"`, and a tap on it invokes
`VideoButtonCallback` with the item when provided and does nothing
otherwise (lines 146-161). -/
theorem play_affordance (p : Props) (s : State) (item : ImageSource) :
    ((renderItem p s item).showPlayButton = true ↔ item.type = some "VideoMessage")
  ∧ (p.hasVideoButtonCallback = true → (renderItem p s item).playPress = some item)
  ∧ (p.hasVideoButtonCallback = false → (renderItem p s item).playPress = none) := by
  refine ⟨?_, fun h => ?_, fun h => ?_⟩
  · simp [renderItem]
  · simp [renderItem, h]
  · simp [renderItem, h]

/-- Witness for C8: with `pVideo`, the video item shows a play
affordance whose tap invokes the callback with the item; with
`baseProps` (no callback) the tap does nothing. -/
theorem play_affordance_witness :
    (renderItem pVideo (mount pVideo) imgVideo).showPlayButton = true
  ∧ (renderItem pVideo (mount pVideo) imgVideo).playPress = some imgVideo
  ∧ (renderItem baseProps (mount baseProps) imgVideo).playPress = none := by
  refine ⟨?_, ?_, ?_⟩
  · exact (play_affordance pVideo (mount pVideo) imgVideo).1.mpr rfl
  · exact (play_affordance pVideo (mount pVideo) imgVideo).2.1 rfl
  · exact (play_affordance baseProps (mount baseProps) imgVideo).2.2 rfl

/-- Claim C5, counterexample: the claim says a missing `uri` makes the
key fall back to the item's list position. The source's `keyExtractor`
(line 185) is `imageSrc => imageSrc.uri`: on an item with no `uri` it
yields no key at all, while the spec's fallback (for, say, position 0)
would yield "0". -/
theorem keyExtractor_no_fallback_counterexample :
    keyExtractor imgNoUri = none
  ∧ specKeyExtractor imgNoUri 0 = "0" :=
  ⟨rfl, rfl⟩

/-- Claim C5, amended: the list key is the item's `uri` unconditionally
— it is determined by the `uri` alone (the list position is never
consulted), and a missing `uri` yields no key rather than a
position-based fallback. -/
theorem keyExtractor_is_uri (a b : ImageSource) (huri : a.uri = b.uri) :
    keyExtractor a = a.uri ∧ keyExtractor a = keyExtractor b := by
  exact ⟨rfl, by simp [keyExtractor, huri]⟩

/-- Witness for the amended C5 at two concrete items sharing a `uri`. -/
theorem keyExtractor_is_uri_witness :
    keyExtractor imgPrint = imgPrint.uri
  ∧ keyExtractor imgPrint = keyExtractor { imgPrint with print_button := none } :=
  keyExtractor_is_uri imgPrint { imgPrint with print_button := none } rfl

/-- Claim C9: `EnhancedImageViewing` (lines 229-231) renders the inner
component with key equal to the `imageIndex` prop, so a render whose
`imageIndex` differs from the mounted instance's key remounts it and
rebuilds all modelled internal state from its defaults. -/
theorem enhanced_key_remounts (p : Props) (inst : MountedInstance)
    (hk : inst.key ≠ enhancedKey p) :
    enhancedKey p = p.imageIndex
  ∧ renderEnhanced p (some inst) = { key := p.imageIndex, state := mount p }
  ∧ (mount p).imageLoaded = false
  ∧ (mount p).barsVisible = true
  ∧ (mount p).scrollEnabled = true
  ∧ (mount p).currentImageIndex = clampIndex p.imageIndex p.images.length := by
  refine ⟨rfl, ?_, ?_, ?_, ?_, ?_⟩
  · have hk2 : inst.key ≠ p.imageIndex := hk
    simp [renderEnhanced, enhancedKey, hk2]
  · unfold mount runIndexEffect
    split <;> rfl
  · unfold mount runIndexEffect
    split <;> rfl
  · unfold mount runIndexEffect
    split <;> rfl
  · exact runIndexEffect_index p (initState p)

/-- Witness for C9: an instance mounted with key 0 is remounted when
the `imageIndex` prop becomes 2. -/
theorem enhanced_key_remounts_witness :
    renderEnhanced { baseProps with imageIndex := 2 }
        (some { key := 0, state := mount baseProps })
      = { key := 2, state := mount { baseProps with imageIndex := 2 } } := by
  have h := (enhanced_key_remounts { baseProps with imageIndex := 2 }
    { key := 0, state := mount baseProps } (by decide)).2.1
  simpa using h

/-- Claim C1, counterexample: item 0 (`imgPrint`, with
`print_button: true`) never fires its own `onLoad`; the only event is
the neighbouring item 1's load. Yet item 0's print affordance goes from
hidden at mount to shown, because lines 163-164 gate on the single
shared `imageLoaded` flag that any rendered item's `onLoad` sets
(lines 79, 88, 140). This refutes "load completion of a different item
never exposes this item's print affordance". -/
theorem print_exposed_by_other_item_load :
    (renderItem pPrint (mount pPrint) imgPrint).showPrintButton = false
  ∧ (renderItem pPrint (run 400 pPrint [Event.itemLoad 1]) imgPrint).showPrintButton = true :=
  ⟨rfl, rfl⟩

/-- Claim C1, amended: the print affordance of an item is rendered
exactly when the item has `print_button: true` and the overlay-wide
`imageLoaded` flag is set; that flag is set by load completion of ANY
rendered item, not only the item's own, and is cleared on a settled
index change only when `onImageIndexChange` is provided. -/
theorem print_gating_shared_flag (pageWidth : Int) (p : Props) (s : State)
    (item : ImageSource) :
    ((renderItem p s item).showPrintButton
        = ((item.print_button == some true) && s.imageLoaded))
  ∧ (∀ i, (step pageWidth p s (Event.itemLoad i)).imageLoaded = true)
  ∧ (∀ o, p.hasOnImageIndexChange = true →
      settleIndex o pageWidth p.images.length ≠ s.currentImageIndex →
      (step pageWidth p s (Event.momentumScrollEnd o)).imageLoaded = false) := by
  refine ⟨rfl, fun i => rfl, fun o hcb hch => ?_⟩
  simp [step, hch, runIndexEffect, hcb]

/-- Witness for the amended C1: with `onImageIndexChange` provided, a
momentum end settling on page 1 (width 400, offset 400) clears the
shared flag. -/
theorem print_gating_shared_flag_witness :
    (step 400 pPrintCb (mount pPrintCb) (Event.momentumScrollEnd 400)).imageLoaded = false :=
  (print_gating_shared_flag 400 pPrintCb (mount pPrintCb) imgPrint).2.2 400 rfl (by decide)

/-- Claim C2, counterexample: with `onImageIndexChange` absent
(`baseProps`), `currentImageIndex` changes from 0 to 1 on a settled
scroll, yet `imageLoaded` stays `true`: the reset of line 83 sits
inside `if (onImageIndexChange)` (line 82), so the flag is NOT reset
"regardless of whether the caller supplied an onImageIndexChange
callback". -/
theorem imageLoaded_not_reset_counterexample :
    (run 400 baseProps []).currentImageIndex = 0
  ∧ (run 400 baseProps [Event.itemLoad 0, Event.momentumScrollEnd 400]).currentImageIndex = 1
  ∧ (run 400 baseProps [Event.itemLoad 0, Event.momentumScrollEnd 400]).imageLoaded = true :=
  ⟨rfl, rfl, rfl⟩

/-- Claim C2, amended: on a settled change of `currentImageIndex`, the
`imageLoaded` flag is reset to `false` when `onImageIndexChange` is
provided, and left unchanged when it is not. -/
theorem imageLoaded_reset_needs_callback (pageWidth : Int) (p : Props) (s : State)
    (o : Int)
    (hch : settleIndex o pageWidth p.images.length ≠ s.currentImageIndex) :
    (step pageWidth p s (Event.momentumScrollEnd o)).imageLoaded
      = (if p.hasOnImageIndexChange then false else s.imageLoaded) := by
  by_cases hcb : p.hasOnImageIndexChange = true
  · simp [step, hch, runIndexEffect, hcb]
  · simp [step, hch, runIndexEffect, hcb]

/-- Witness for the amended C2: load, then settle on page 1 with the
callback provided: the flag ends `false`. -/
theorem imageLoaded_reset_needs_callback_witness :
    (step 400 pCb (run 400 pCb [Event.itemLoad 0]) (Event.momentumScrollEnd 400)).imageLoaded
      = (if pCb.hasOnImageIndexChange then false
         else (run 400 pCb [Event.itemLoad 0]).imageLoaded) :=
  imageLoaded_reset_needs_callback 400 pCb (run 400 pCb [Event.itemLoad 0]) 400 (by decide)

/-- Claim C3, counterexample: the `useEffect` of lines 81-86 also runs
once after mount, so with `onImageIndexChange` provided it is invoked
with the initial index on an EMPTY event trace — no momentum-scroll-end
ever fired and no page change settled. This refutes "driven only by
momentum-scroll-end events". -/
theorem callback_fires_on_mount_counterexample :
    (run 400 pCb []).indexChangeCalls = [0] :=
  rfl

/-- Claim C3, amended: when `onImageIndexChange` is provided, it is
called once on mount with the initial index, and thereafter only by
momentum-scroll-end events: a settle on the current index adds no call,
a settle on a new index adds exactly one call carrying the settled
index, and in-flight scroll positions, item loads and zoom reports
never add a call. -/
theorem settle_only_index_callback (pageWidth : Int) (p : Props) (s : State)
    (hcb : p.hasOnImageIndexChange = true) :
    (mount p).indexChangeCalls = [clampIndex p.imageIndex p.images.length]
  ∧ (∀ o, (step pageWidth p s (Event.scrollDrag o)).indexChangeCalls = s.indexChangeCalls)
  ∧ (∀ i, (step pageWidth p s (Event.itemLoad i)).indexChangeCalls = s.indexChangeCalls)
  ∧ (∀ b, (step pageWidth p s (Event.zoom b)).indexChangeCalls = s.indexChangeCalls)
  ∧ (∀ o, (step pageWidth p s (Event.momentumScrollEnd o)).indexChangeCalls =
        if settleIndex o pageWidth p.images.length = s.currentImageIndex
        then s.indexChangeCalls
        else s.indexChangeCalls ++ [settleIndex o pageWidth p.images.length]) := by
  refine ⟨?_, fun o => rfl, fun i => rfl, fun b => rfl, fun o => ?_⟩
  · simp [mount, initState, runIndexEffect, hcb]
  · by_cases h : settleIndex o pageWidth p.images.length = s.currentImageIndex
    · simp [step, h]
    · simp [step, h, runIndexEffect, hcb]

/-- Witness for the amended C3 at `pCb`: the mount call carries the
clamped initial index, and a momentum end at offset 400 (page 1) adds
exactly the settled index. -/
theorem settle_only_index_callback_witness :
    (mount pCb).indexChangeCalls = [clampIndex pCb.imageIndex pCb.images.length]
  ∧ (step 400 pCb (mount pCb) (Event.momentumScrollEnd 400)).indexChangeCalls =
      (if settleIndex 400 400 pCb.images.length = (mount pCb).currentImageIndex
       then (mount pCb).indexChangeCalls
       else (mount pCb).indexChangeCalls ++ [settleIndex 400 400 pCb.images.length]) :=
  ⟨(settle_only_index_callback 400 pCb (mount pCb) rfl).1,
   (settle_only_index_callback 400 pCb (mount pCb) rfl).2.2.2.2 400⟩

/-- A single event keeps `currentImageIndex` inside `[0, imageCount)`. -/
theorem step_preserves_range (pageWidth : Int) (p : Props)
    (hne : p.images.length ≠ 0) (s : State) (e : Event)
    (h : 0 ≤ s.currentImageIndex ∧ s.currentImageIndex < (p.images.length : Int)) :
    0 ≤ (step pageWidth p s e).currentImageIndex
  ∧ (step pageWidth p s e).currentImageIndex < (p.images.length : Int) := by
  cases e with
  | momentumScrollEnd o =>
      by_cases hc : settleIndex o pageWidth p.images.length = s.currentImageIndex
      · simpa [step, hc] using h
      · have h1 := clampIndex_nonneg (roundDiv o pageWidth) p.images.length
        have h2 := clampIndex_lt (roundDiv o pageWidth) p.images.length hne
        simp only [settleIndex] at hc
        simp [step, settleIndex, hc, runIndexEffect_index]
        exact ⟨h1, h2⟩
  | scrollDrag o => simpa [step] using h
  | itemLoad i => simpa [step] using h
  | zoom b => simpa [step] using h

/-- Any event sequence keeps `currentImageIndex` inside
`[0, imageCount)`. -/
theorem foldl_preserves_range (pageWidth : Int) (p : Props)
    (hne : p.images.length ≠ 0) :
    ∀ (events : List Event) (s : State),
      (0 ≤ s.currentImageIndex ∧ s.currentImageIndex < (p.images.length : Int)) →
      (0 ≤ (events.foldl (step pageWidth p) s).currentImageIndex
        ∧ (events.foldl (step pageWidth p) s).currentImageIndex < (p.images.length : Int))
  | [], s, h => by simpa using h
  | e :: es, s, h => by
      simpa using foldl_preserves_range pageWidth p hne es (step pageWidth p s e)
        (step_preserves_range pageWidth p hne s e h)

/-- Claim C6: for every `imageIndex` input, including negative values
and values ≥ `images.length`, the index is clamped at mount
(`clampIndex`, Modelled from the spec for the `useImageIndexChange`
hook), and after any sequence of events `currentImageIndex` satisfies
`0 ≤ currentImageIndex < imageCount` (for a nonempty image list). -/
theorem currentIndex_in_range (pageWidth : Int) (p : Props)
    (hne : p.images ≠ []) (events : List Event) :
    0 ≤ (run pageWidth p events).currentImageIndex
  ∧ (run pageWidth p events).currentImageIndex < (p.images.length : Int) := by
  have hne2 : p.images.length ≠ 0 := fun h => hne (List.length_eq_zero.mp h)
  have hmi : (mount p).currentImageIndex = clampIndex p.imageIndex p.images.length := by
    unfold mount
    rw [runIndexEffect_index]
    rfl
  have hmount : 0 ≤ (mount p).currentImageIndex
      ∧ (mount p).currentImageIndex < (p.images.length : Int) := by
    rw [hmi]
    exact ⟨clampIndex_nonneg _ _, clampIndex_lt _ _ hne2⟩
  exact foldl_preserves_range pageWidth p hne2 events (mount p) hmount

/-- Witness for C6 on a one-image list: a momentum end far past the end
(offset 4000, width 400) still leaves the index inside `[0, 1)`. -/
theorem currentIndex_in_range_witness :
    0 ≤ (run 400 pOne [Event.momentumScrollEnd 4000]).currentImageIndex
  ∧ (run 400 pOne [Event.momentumScrollEnd 4000]).currentImageIndex
      < (pOne.images.length : Int) :=
  currentIndex_in_range 400 pOne (by decide) [Event.momentumScrollEnd 4000]

end ImageViewingModel
